import Mathlib

/-!
Shallow embedding of the FaceX image-analysis dashboard (`src/app.py`).

The application keeps a process-local session list `st.session_state.uploaded_images`
of per-image dictionaries, calls the external `DeepFace.analyze` service through
`analyze_faces`, and compiles analyzed records into a PDF with `PDFReport`.

Modelling conventions:
- a decoded PIL image buffer is abstracted as a natural-number identifier (`Img`);
- the filesystem is the list of scratch-file paths that currently exist
  (`Image.save` inserts a path, `Path.unlink` removes it);
- the external DeepFace library is an opaque service (`InferenceService`)
  whose call contract is the one the spec gives in section 6: per-face results,
  a best-effort fallback result when no face is found and `enforce_detection`
  is off, and arbitrary other failures (corrupt file, service error);
- UI error surfaces (`st.error`, `st.toast`) are modelled as emitted strings.
-/

namespace FaceX

/-- A decoded image buffer (a PIL `Image`), abstracted to an identifier. -/
abbrev Img := Nat

/-- One result dictionary returned by `DeepFace.analyze` for one detected face.
Score maps (`emotion`, `race`) are association lists in the insertion order of the
underlying Python dicts; scores are rationals. -/
structure AnalysisResult where
  age : Nat
  gender : String
  dominant_emotion : String
  emotion : List (String × ℚ)
  dominant_race : String
  race : List (String × ℚ)
deriving DecidableEq

/-- One element of `st.session_state.uploaded_images` (the dict built in the
Upload view, `src/app.py` lines 200-206). -/
structure ImgData where
  timestamp : String
  image : Img
  analysis : Option AnalysisResult
  filename : String
  temp_path : Option String
deriving DecidableEq

/-- The opaque external inference capability behind `DeepFace.analyze`
(spec section 6): `faces` gives one result per detected face, `fallback` the
best-effort whole-image result used when detection is not enforced, and
`failure` an optional error (corrupt scratch file, service unavailable). -/
structure InferenceService where
  faces : Img → List AnalysisResult
  fallback : Img → AnalysisResult
  failure : Img → Option String

/-- Models the external `DeepFace.analyze` call contract from spec section 6:
any non-detection failure raises; otherwise one result per detected face; with
no detected face, `enforce_detection = true` raises while
`enforce_detection = false` yields a single best-effort result. -/
def DeepFace_analyze (svc : InferenceService) (img : Img)
    (enforce_detection : Bool) : Except String (List AnalysisResult) :=
  match svc.failure img with
  | some msg => Except.error msg
  | none =>
    match svc.faces img with
    | [] =>
      if enforce_detection then Except.error "Face could not be detected."
      else Except.ok [svc.fallback img]
    | found => Except.ok found

/-- Embeds `analyze_faces` (`src/app.py` lines 107-121): calls
`DeepFace.analyze` with `enforce_detection=False`; on success returns the
result list, on any exception shows `st.error("Analysis failed: " + str(e))`
and returns `None`. The second component is the list of emitted error
messages. -/
def analyze_faces (svc : InferenceService) (img : Img) :
    Option (List AnalysisResult) × List String :=
  match DeepFace_analyze svc img false with
  | Except.ok results => (some results, [])
  | Except.error e => (none, ["Analysis failed: " ++ e])

/-- The scratch path `f"temp_{idx}.jpg"` used by the Gallery analyze button. -/
def tempPath (idx : Nat) : String := "temp_" ++ toString idx ++ ".jpg"

/-- Result of one Gallery analyze-button click: the filesystem, the session
list, and the error messages shown to the user. -/
structure AnalyzeOutcome where
  fs : List String
  records : List ImgData
  errors : List String
deriving DecidableEq

/-- Writing a file: `Image.save` creates the path (overwriting any previous
content), so the set of existing paths gains `p`. -/
def savePath (fs : List String) (p : String) : List String :=
  if fs.contains p then fs else fs ++ [p]

/-- Embeds the Gallery analyze-button handler (`src/app.py` lines 235-247):
save the image to `temp_{idx}.jpg`, call `analyze_faces`, and only if the
returned value is truthy (a non-empty list) store its first element as the
record's `analysis` and the scratch path as its `temp_path`. A `None` result
(the gateway already showed the error) and an empty list both leave the record
untouched. -/
def galleryAnalyze (svc : InferenceService) (fs : List String)
    (records : List ImgData) (idx : Nat) : AnalyzeOutcome :=
  match records[idx]? with
  | none => ⟨fs, records, []⟩
  | some d =>
    let fs1 := savePath fs (tempPath idx)
    match analyze_faces svc d.image with
    | (some (r :: _), _) =>
      ⟨fs1,
       records.set idx
         { d with analysis := some r, temp_path := some (tempPath idx) },
       []⟩
    | (some [], _) => ⟨fs1, records, []⟩
    | (none, errs) => ⟨fs1, records, errs⟩

/-- The Gallery view shows the analyze button exactly when
`img_data["analysis"]` is falsy (`src/app.py` line 231): `None` is falsy and a
result dict is truthy. -/
def galleryOffersTrigger (d : ImgData) : Bool := d.analysis.isNone

/-- An uploaded file as the Upload view sees it: its name and the outcome of
`PIL.Image.open` on it (`Except.error` carries the exception text of an
undecodable file). -/
structure UploadedFile where
  name : String
  decoded : Except String Img

/-- Builds the session dict appended for a successfully opened upload
(`src/app.py` lines 200-207). -/
def mkRecord (now : String) (im : Img) (name : String) : ImgData :=
  { timestamp := now, image := im, analysis := none,
    filename := name, temp_path := none }

/-- The toast text `f"Added {n} images to gallery!"` shown after an upload
batch (`src/app.py` line 211). -/
def uploadToast (n : Nat) : String :=
  "Added " ++ toString n ++ " images to gallery!"

/-- Result of one Upload-view batch: the session list, the per-file error
messages, and the toast (absent when no file was chosen). -/
structure UploadOutcome where
  records : List ImgData
  errors : List String
  toast : Option String
deriving DecidableEq

/-- The per-file loop of the Upload view (`src/app.py` lines 197-209): try to
open each file; on success append a fresh record, on failure show
`st.error("Error processing " + name + ": " + str(e))` and continue with the
rest of the batch. -/
def uploadLoop (recs : List ImgData) (errs : List String)
    (files : List UploadedFile) (now : String) : List ImgData × List String :=
  match files with
  | [] => (recs, errs)
  | f :: rest =>
    match f.decoded with
    | Except.ok im => uploadLoop (recs ++ [mkRecord now im f.name]) errs rest now
    | Except.error e =>
      uploadLoop recs (errs ++ ["Error processing " ++ f.name ++ ": " ++ e]) rest now

/-- Embeds the Upload view (`src/app.py` lines 196-211): with a non-empty
batch, run the per-file loop and then toast `Added {len(uploaded_files)}
images to gallery!` — note the count is the length of the whole batch. An
empty batch is falsy in Python, so nothing happens. -/
def uploadAction (records : List ImgData) (files : List UploadedFile)
    (now : String) : UploadOutcome :=
  match files with
  | [] => ⟨records, [], none⟩
  | _ :: _ =>
    let step := uploadLoop records [] files now
    ⟨step.1, step.2, some (uploadToast files.length)⟩

/-- The guarded deletion `if Path(p).exists(): Path(p).unlink()` used by the
Clear Cache sweep: remove the path when it exists, otherwise leave the
filesystem alone (a missing file is not an error). -/
def unlinkIfExists (fs : List String) (p : String) : List String :=
  if fs.contains p then fs.filter (fun q => q != p) else fs

/-- The temp-file sweep of the Clear Cache button (`src/app.py` lines
367-369): for each record, if its `temp_path` is set and the path exists,
unlink it. Mirrors the Python `for` loop record by record. -/
def deleteTempFiles (fs : List String) (records : List ImgData) : List String :=
  match records with
  | [] => fs
  | d :: rest =>
    let fs1 :=
      match d.temp_path with
      | some p => unlinkIfExists fs p
      | none => fs
    deleteTempFiles fs1 rest

/-- Embeds the Clear Cache button (`src/app.py` lines 365-371): delete every
existing referenced scratch file, then `st.session_state.clear()` empties the
session (the uploaded-images list re-initializes to `[]` on rerun). Returns
the filesystem and the session list. -/
def clearAction (fs : List String) (records : List ImgData) :
    List String × List ImgData :=
  (deleteTempFiles fs records, [])

/-- One drawing primitive placed on a PDF page by `PDFReport`. -/
inductive PdfItem where
  | textCell (w h : ℚ) (txt : String)
  | imageBox (path : String) (w h : ℚ)
  | barCell (w : ℚ)
deriving DecidableEq

/-- A compiled PDF document: its list of pages, each a list of drawn items. -/
structure PDFState where
  pages : List (List PdfItem)
deriving DecidableEq

/-- The items `PDFReport.header` draws at the top of every added page
(`src/app.py` lines 125-128). The page-number footer is a per-page constant
and is not tracked. -/
def headerItems : List PdfItem :=
  [PdfItem.textCell 0 10 "FaceX AI Analysis Report"]

/-- The items `PDFReport.add_image_analysis` lays out on the new page before
reaching the emotion-bar loop (`src/app.py` lines 136-162). -/
def analysisPageItems (img_path : String) (analysis : AnalysisResult)
    (timestamp : String) : List PdfItem :=
  headerItems ++
  [ PdfItem.textCell 0 10 ("Analysis for " ++ timestamp),
    PdfItem.imageBox img_path 80 60,
    PdfItem.textCell 40 6 "Age:",
    PdfItem.textCell 0 6 (toString analysis.age),
    PdfItem.textCell 40 6 "Gender:",
    PdfItem.textCell 0 6 analysis.gender,
    PdfItem.textCell 40 6 "Dominant Emotion:",
    PdfItem.textCell 0 6 analysis.dominant_emotion,
    PdfItem.textCell 40 6 "Dominant Race:",
    PdfItem.textCell 0 6 analysis.dominant_race,
    PdfItem.textCell 0 10 "Emotion Distribution:" ]

/-- The bar widths the emotion loop computes, `value / max_val * 100` with
`max_val = max(emotions.values())` over that record alone (`src/app.py` lines
165-172). This is the per-record normalization the loop intends to draw; see
`add_image_analysis` for why no bar is ever actually drawn. -/
def emotionBarWidths (scores : List (String × ℚ)) : List ℚ :=
  match scores with
  | [] => []
  | s :: rest =>
    let max_val := rest.foldl (fun m ev => if m < ev.2 then ev.2 else m) s.2
    (s :: rest).map (fun ev => ev.2 / max_val * 100)

/-- Embeds `PDFReport.add_image_analysis` (`src/app.py` lines 135-172). The
page and its text cells are laid out, then the emotion loop runs. With an
empty score dict, `max(emotions.values())` raises `ValueError`. Otherwise the
first iteration reaches the bar-cell call on line 172, which passes the
parameter `w` of `FPDF.cell` twice: once positionally (the leading `0`) and
once as the keyword `w=value/max_val*100`; Python raises `TypeError` for the
duplicate argument before any bar is drawn. Every call therefore raises, and
the exception propagates to the caller, where the partially mutated
`PDFReport` object is discarded. -/
def add_image_analysis (pdf : PDFState) (img_path : String)
    (analysis : AnalysisResult) (timestamp : String) : Except String PDFState :=
  let _page := pdf.pages ++ [analysisPageItems img_path analysis timestamp]
  match analysis.emotion with
  | [] => Except.error "max() arg is an empty sequence"
  | _ :: _ => Except.error "cell() got multiple values for argument w"

/-- Models `FPDF.output` via `close` (external library contract): a document
with zero pages gets one blank page added, which triggers the header; with at
least one page it is returned as is. -/
def closeDoc (pdf : PDFState) : PDFState :=
  match pdf.pages with
  | [] => ⟨[headerItems]⟩
  | _ :: _ => pdf

/-- The scratch path `f"report_temp_{id(img_data)}.jpg"` used by the Reports
loop for an analyzed record with no `temp_path`; the Python object id is
abstracted by the record's position in the session list. -/
def reportTempPath (k : Nat) : String :=
  "report_temp_" ++ toString k ++ ".jpg"

/-- The Reports-view loop over the session list (`src/app.py` lines 328-345):
records without an `analysis` are skipped; each analyzed record contributes
one `add_image_analysis` page, reading from its `temp_path` or from a
freshly written (and afterwards unlinked) report scratch file. The first
exception aborts the whole generation — the enclosing `try` reports it and
offers no download. -/
def reportLoop (records : List ImgData) (k : Nat) (pdf : PDFState) :
    Except String PDFState :=
  match records with
  | [] => Except.ok (closeDoc pdf)
  | d :: rest =>
    match d.analysis with
    | none => reportLoop rest (k + 1) pdf
    | some a =>
      let img_path :=
        match d.temp_path with
        | some p => p
        | none => reportTempPath k
      match add_image_analysis pdf img_path a d.timestamp with
      | Except.error e => Except.error e
      | Except.ok pdf1 => reportLoop rest (k + 1) pdf1

/-- Embeds the Generate Full Report button handler (`src/app.py` lines
323-360): build a fresh `PDFReport`, run the loop over the full session
snapshot, and emit the document bytes via `output`. An `Except.error` is the
`st.error("Report generation failed: ...")` path, where no file is offered. -/
def generateReport (records : List ImgData) : Except String PDFState :=
  reportLoop records 0 ⟨[]⟩

/-- The Reports view (`src/app.py` lines 317-321) shows the generate button
only when the session list is non-empty; `none` means generation cannot be
invoked at all. -/
def reportsView (records : List ImgData) : Option (Except String PDFState) :=
  if records.isEmpty then none else some (generateReport records)

/-! Concrete sample data used to exercise the definitions. -/

/-- A best-effort whole-image result, as DeepFace emits when detection is not
enforced and no face is found. -/
def bestEffortResult : AnalysisResult :=
  { age := 29, gender := "Woman", dominant_emotion := "neutral",
    emotion := [("neutral", 95), ("happy", 5)],
    dominant_race := "white", race := [("white", 99)] }

/-- A per-face result for the first detected face of a sample image. -/
def faceResultA : AnalysisResult :=
  { age := 31, gender := "Man", dominant_emotion := "happy",
    emotion := [("happy", 90), ("sad", 10)],
    dominant_race := "asian", race := [("asian", 80), ("white", 20)] }

/-- A per-face result for the second detected face of a sample image. -/
def faceResultB : AnalysisResult :=
  { age := 7, gender := "Woman", dominant_emotion := "surprise",
    emotion := [("surprise", 60), ("happy", 40)],
    dominant_race := "asian", race := [("asian", 90), ("white", 10)] }

/-- A service that detects no face in any image and never errors. -/
def noFaceService : InferenceService :=
  { faces := fun _ => [], fallback := fun _ => bestEffortResult,
    failure := fun _ => none }

/-- A service whose every call raises (service unavailable). -/
def downService : InferenceService :=
  { faces := fun _ => [], fallback := fun _ => bestEffortResult,
    failure := fun _ => some "Service unavailable" }

/-- A service that detects two faces in every image. -/
def twoFaceService : InferenceService :=
  { faces := fun _ => [faceResultA, faceResultB],
    fallback := fun _ => bestEffortResult, failure := fun _ => none }

/-- A freshly uploaded, not yet analyzed session record. -/
def demoRecord : ImgData := mkRecord "2024-01-01 10:00:00" 0 "a.jpg"

end FaceX

namespace FaceX

/-! Helper lemmas about the filesystem sweep and the upload loop. -/

/-- Unlinking `p` leaves the filesystem without `p`, whether or not the file
existed. -/
theorem not_mem_unlinkIfExists_self (fs : List String) (p : String) :
    p ∉ unlinkIfExists fs p := by
  unfold unlinkIfExists
  split
  · intro hmem
    have := (List.mem_filter.mp hmem).2
    simp at this
  · intro hmem
    rename_i hc
    rw [Bool.not_eq_true] at hc
    have habs : p ∉ fs := by simpa using hc
    exact habs hmem

/-- Unlinking never creates files: a path absent before is absent after. -/
theorem not_mem_unlinkIfExists_mono (fs : List String) (p q : String)
    (h : p ∉ fs) : p ∉ unlinkIfExists fs q := by
  unfold unlinkIfExists
  split
  · intro hmem
    exact h (List.mem_filter.mp hmem).1
  · exact h

/-- Unlinking `q` keeps every other existing path. -/
theorem mem_unlinkIfExists_of_ne (fs : List String) (p q : String)
    (hmem : p ∈ fs) (hne : p ≠ q) : p ∈ unlinkIfExists fs q := by
  unfold unlinkIfExists
  split
  · exact List.mem_filter.mpr ⟨hmem, by simpa using hne⟩
  · exact hmem

/-- The sweep never creates files. -/
theorem not_mem_deleteTempFiles (records : List ImgData) :
    ∀ (fs : List String) (p : String), p ∉ fs → p ∉ deleteTempFiles fs records := by
  induction records with
  | nil => intro fs p h; simpa [deleteTempFiles] using h
  | cons d rest ih =>
    intro fs p h
    rw [deleteTempFiles]
    apply ih
    cases htp : d.temp_path with
    | none => simpa using h
    | some q => simpa using not_mem_unlinkIfExists_mono fs p q h

/-- Every scratch path referenced by some record is gone after the sweep. -/
theorem deleteTempFiles_removes (records : List ImgData) :
    ∀ (fs : List String) (d : ImgData) (p : String), d ∈ records →
      d.temp_path = some p → p ∉ deleteTempFiles fs records := by
  induction records with
  | nil => intro fs d p h; exact absurd h (List.not_mem_nil d)
  | cons d0 rest ih =>
    intro fs d p hmem htp
    rw [deleteTempFiles]
    rcases List.mem_cons.mp hmem with heq | htail
    · subst heq
      rw [htp]
      exact not_mem_deleteTempFiles rest _ p (not_mem_unlinkIfExists_self fs p)
    · exact ih _ d p htail htp

/-- A path no record references survives the sweep. -/
theorem mem_deleteTempFiles_of_unreferenced (records : List ImgData) :
    ∀ (fs : List String) (p : String), p ∈ fs →
      (∀ d ∈ records, d.temp_path ≠ some p) → p ∈ deleteTempFiles fs records := by
  induction records with
  | nil => intro fs p h _; simpa [deleteTempFiles] using h
  | cons d0 rest ih =>
    intro fs p h hno
    rw [deleteTempFiles]
    have htail : ∀ d ∈ rest, d.temp_path ≠ some p := by
      intro d hd
      exact hno d (List.mem_cons_of_mem d0 hd)
    cases htp : d0.temp_path with
    | none =>
      apply ih _ p _ htail
      simpa using h
    | some q =>
      apply ih _ p _ htail
      have hq : q ≠ p := by
        intro hqp
        exact hno d0 (List.mem_cons_self d0 rest) (by rw [htp, hqp])
      simpa using mem_unlinkIfExists_of_ne fs p q h (fun hpq => hq hpq.symm)

/-- Saving a file makes it exist. -/
theorem mem_savePath_self (fs : List String) (p : String) :
    p ∈ savePath fs p := by
  unfold savePath
  split
  · rename_i hc
    simpa using hc
  · simp

/-- Closed form of the upload loop: decoded files become appended records,
undecodable files become appended error messages, in batch order. -/
theorem uploadLoop_spec (files : List UploadedFile) :
    ∀ (recs : List ImgData) (errs : List String) (now : String),
      uploadLoop recs errs files now =
        (recs ++ files.filterMap (fun f =>
            match f.decoded with
            | Except.ok im => some (mkRecord now im f.name)
            | Except.error _ => none),
         errs ++ files.filterMap (fun f =>
            match f.decoded with
            | Except.ok _ => none
            | Except.error e =>
              some ("Error processing " ++ f.name ++ ": " ++ e))) := by
  induction files with
  | nil => intro recs errs now; simp [uploadLoop]
  | cons f rest ih =>
    intro recs errs now
    cases hf : f.decoded with
    | ok im => simp [uploadLoop, hf, ih]
    | error e => simp [uploadLoop, hf, ih]

/-- A report run over records none of which is analyzed adds no page and
succeeds with the closed document. -/
theorem reportLoop_all_unanalyzed (records : List ImgData) :
    ∀ (k : Nat) (pdf : PDFState), (∀ d ∈ records, d.analysis = none) →
      reportLoop records k pdf = Except.ok (closeDoc pdf) := by
  induction records with
  | nil => intro k pdf _; rfl
  | cons d rest ih =>
    intro k pdf h
    have hd : d.analysis = none := h d (List.mem_cons_self d rest)
    rw [reportLoop, hd]
    exact ih (k + 1) pdf (fun d2 hm => h d2 (List.mem_cons_of_mem d hm))

end FaceX

namespace FaceX

/-! Theorems settling the claims. -/

/-- C1. The Analysis Gateway is configured with detection not enforced:
whenever the service raises no other failure and detects no face,
`analyze_faces` returns a best-effort result list (the fallback whole-image
result) and emits no error — absence of a detected face is never a
rejection. -/
theorem analyze_faces_no_face_best_effort
    (svc : InferenceService) (img : Img)
    (hok : svc.failure img = none) (hnone : svc.faces img = []) :
    analyze_faces svc img = (some [svc.fallback img], []) := by
  simp [analyze_faces, DeepFace_analyze, hok, hnone]

/-- Witness for C1: on a service that never detects a face and never errors,
analyzing image 0 yields its best-effort fallback result without failure. -/
theorem analyze_faces_no_face_best_effort_witness :
    analyze_faces noFaceService 0 = (some [noFaceService.fallback 0], []) :=
  analyze_faces_no_face_best_effort noFaceService 0 rfl rfl

/-- C2. When the inference call fails for a reason other than no-face, the
Gallery analyze action surfaces exactly the diagnostic message, leaves the
whole session list unchanged, and the record (still unanalyzed) keeps its
analyze trigger. -/
theorem gallery_analyze_failure_surfaced
    (svc : InferenceService) (fs : List String) (records : List ImgData)
    (idx : Nat) (d : ImgData) (msg : String)
    (hidx : records[idx]? = some d)
    (hfail : svc.failure d.image = some msg)
    (hun : d.analysis = none) :
    (galleryAnalyze svc fs records idx).errors =
        ["Analysis failed: " ++ msg] ∧
      (galleryAnalyze svc fs records idx).records = records ∧
      ∃ d2, (galleryAnalyze svc fs records idx).records[idx]? = some d2 ∧
        d2.analysis = none ∧ galleryOffersTrigger d2 = true := by
  have hfa : analyze_faces svc d.image = (none, ["Analysis failed: " ++ msg]) := by
    simp [analyze_faces, DeepFace_analyze, hfail]
  have hrecs : (galleryAnalyze svc fs records idx).records = records := by
    simp [galleryAnalyze, hidx, hfa]
  refine ⟨?_, hrecs, d, ?_, hun, by simp [galleryOffersTrigger, hun]⟩
  · simp [galleryAnalyze, hidx, hfa]
  · rw [hrecs]; exact hidx

/-- Witness for C2: with an unavailable service, analyzing the only record
shows the diagnostic message and leaves the session list unchanged. -/
theorem gallery_analyze_failure_surfaced_witness :
    (galleryAnalyze downService [] [demoRecord] 0).errors =
        ["Analysis failed: " ++ "Service unavailable"] ∧
      (galleryAnalyze downService [] [demoRecord] 0).records = [demoRecord] := by
  obtain ⟨h1, h2, _⟩ :=
    gallery_analyze_failure_surfaced downService [] [demoRecord] 0 demoRecord
      "Service unavailable" rfl rfl rfl
  exact ⟨h1, h2⟩

/-- C7. When the service returns one result per detected face, the Gallery
analyze action stores exactly the first result as the analysis of the record;
the remaining results do not appear in the stored record. -/
theorem gallery_analyze_first_face_only
    (svc : InferenceService) (fs : List String) (records : List ImgData)
    (idx : Nat) (d : ImgData) (r : AnalysisResult) (rest : List AnalysisResult)
    (hidx : records[idx]? = some d)
    (hres : DeepFace_analyze svc d.image false = Except.ok (r :: rest)) :
    (galleryAnalyze svc fs records idx).records[idx]? =
      some { d with analysis := some r, temp_path := some (tempPath idx) } := by
  have hfa : analyze_faces svc d.image = (some (r :: rest), []) := by
    simp [analyze_faces, hres]
  have hlt : idx < records.length := by
    have := List.getElem?_eq_some.mp hidx
    exact this.1
  simp [galleryAnalyze, hidx, hfa, List.getElem?_set_eq_of_lt _ hlt]

/-- Witness for C7: a two-face image stores the first result of the pair and
discards the second. -/
theorem gallery_analyze_first_face_only_witness :
    (galleryAnalyze twoFaceService [] [demoRecord] 0).records[0]? =
      some { demoRecord with
              analysis := some faceResultA, temp_path := some (tempPath 0) } :=
  gallery_analyze_first_face_only twoFaceService [] [demoRecord] 0 demoRecord
    faceResultA [faceResultB] rfl rfl

/-- C9. The Gallery analyze action on index `idx` never changes any other
position of the session list, whatever the service does. -/
theorem gallery_analyze_frame
    (svc : InferenceService) (fs : List String) (records : List ImgData)
    (idx j : Nat) (hne : j ≠ idx) :
    (galleryAnalyze svc fs records idx).records[j]? = records[j]? := by
  cases hidx : records[idx]? with
  | none => simp [galleryAnalyze, hidx]
  | some d =>
    rcases hfa : analyze_faces svc d.image with ⟨o, errs⟩
    cases o with
    | none => simp [galleryAnalyze, hidx, hfa]
    | some rs =>
      cases rs with
      | nil => simp [galleryAnalyze, hidx, hfa]
      | cons r rrest =>
        simp [galleryAnalyze, hidx, hfa, List.getElem?_set_ne (Ne.symm hne)]

/-- Witness for C9: analyzing record 0 of a two-record session leaves
record 1 untouched. -/
theorem gallery_analyze_frame_witness :
    (galleryAnalyze noFaceService [] [demoRecord, demoRecord] 0).records[1]? =
      [demoRecord, demoRecord][1]? :=
  gallery_analyze_frame noFaceService [] [demoRecord, demoRecord] 0 1
    (by decide)

/-- C10. When the gateway call fails, the scratch file `temp_{idx}.jpg` was
already written and so exists afterwards, yet the session list — and in
particular the temp path of the clicked record — is unchanged; since no
record references the scratch file, the Clear Cache sweep does not delete
it. -/
theorem gallery_analyze_failure_orphans_scratch
    (svc : InferenceService) (fs : List String) (records : List ImgData)
    (idx : Nat) (d : ImgData) (msg : String)
    (hidx : records[idx]? = some d)
    (hfail : svc.failure d.image = some msg)
    (htp : d.temp_path = none)
    (hnoref : ∀ d2 ∈ records, d2.temp_path ≠ some (tempPath idx)) :
    tempPath idx ∈ (galleryAnalyze svc fs records idx).fs ∧
      (galleryAnalyze svc fs records idx).records = records ∧
      (galleryAnalyze svc fs records idx).records[idx]? = some d ∧
      d.temp_path = none ∧
      tempPath idx ∈
        (clearAction (galleryAnalyze svc fs records idx).fs
          (galleryAnalyze svc fs records idx).records).1 := by
  have hfa : analyze_faces svc d.image = (none, ["Analysis failed: " ++ msg]) := by
    simp [analyze_faces, DeepFace_analyze, hfail]
  have hfs : (galleryAnalyze svc fs records idx).fs = savePath fs (tempPath idx) := by
    simp [galleryAnalyze, hidx, hfa]
  have hrecs : (galleryAnalyze svc fs records idx).records = records := by
    simp [galleryAnalyze, hidx, hfa]
  refine ⟨?_, hrecs, ?_, htp, ?_⟩
  · rw [hfs]; exact mem_savePath_self fs (tempPath idx)
  · rw [hrecs]; exact hidx
  · rw [hfs, hrecs]
    exact mem_deleteTempFiles_of_unreferenced records (savePath fs (tempPath idx))
      (tempPath idx) (mem_savePath_self fs (tempPath idx)) hnoref

/-- Witness for C10: after a failed analyze of the only record, the scratch
file temp_0.jpg exists, the record still references nothing, and Clear Cache
leaves the file on disk. -/
theorem gallery_analyze_failure_orphans_scratch_witness :
    tempPath 0 ∈ (galleryAnalyze downService [] [demoRecord] 0).fs ∧
      tempPath 0 ∈
        (clearAction (galleryAnalyze downService [] [demoRecord] 0).fs
          (galleryAnalyze downService [] [demoRecord] 0).records).1 := by
  obtain ⟨h1, _, _, _, h5⟩ :=
    gallery_analyze_failure_orphans_scratch downService [] [demoRecord] 0
      demoRecord "Service unavailable" rfl rfl rfl (by decide)
  exact ⟨h1, h5⟩

/-- C8. Clear Cache empties the session, deletes every file a record
references through its temp path (whether or not it still existed — a missing
file is skipped, not an error), and running it again right away returns the
same state: the second call is a no-op that never fails. -/
theorem clear_deletes_and_empties (fs : List String) (records : List ImgData) :
    (clearAction fs records).2 = [] ∧
      (∀ d ∈ records, ∀ p, d.temp_path = some p →
        p ∉ (clearAction fs records).1) ∧
      clearAction (clearAction fs records).1 (clearAction fs records).2 =
        clearAction fs records := by
  refine ⟨rfl, ?_, rfl⟩
  intro d hd p htp
  exact deleteTempFiles_removes records fs d p hd htp

/-- Witness for C8: clearing a session whose only record references
temp_0.jpg removes that file, keeps the unrelated file, empties the session,
and a second clear changes nothing. -/
theorem clear_deletes_and_empties_witness :
    (clearAction ["temp_0.jpg", "keep.txt"]
        [{ demoRecord with temp_path := some "temp_0.jpg" }]).2 = [] ∧
      "temp_0.jpg" ∉
        (clearAction ["temp_0.jpg", "keep.txt"]
          [{ demoRecord with temp_path := some "temp_0.jpg" }]).1 ∧
      clearAction
          (clearAction ["temp_0.jpg", "keep.txt"]
            [{ demoRecord with temp_path := some "temp_0.jpg" }]).1
          (clearAction ["temp_0.jpg", "keep.txt"]
            [{ demoRecord with temp_path := some "temp_0.jpg" }]).2 =
        clearAction ["temp_0.jpg", "keep.txt"]
          [{ demoRecord with temp_path := some "temp_0.jpg" }] := by
  obtain ⟨h1, h2, h3⟩ :=
    clear_deletes_and_empties ["temp_0.jpg", "keep.txt"]
      [{ demoRecord with temp_path := some "temp_0.jpg" }]
  exact ⟨h1,
    h2 { demoRecord with temp_path := some "temp_0.jpg" }
      (List.mem_cons_self _ _) "temp_0.jpg" rfl, h3⟩

/-- Counterexample for C6: uploading two decodable images and one corrupt
file into an empty session adds 2 records and reports 1 per-file failure, but
the toast reports the whole batch size 3 — which differs from the count of
newly added images, 2. -/
theorem upload_count_counterexample :
    (uploadAction []
        [⟨"a.jpg", Except.ok 0⟩, ⟨"b.jpg", Except.ok 1⟩,
         ⟨"c.jpg", Except.error "cannot identify image file"⟩]
        "2024-01-01 10:00:00").records.length = 2 ∧
      (uploadAction []
        [⟨"a.jpg", Except.ok 0⟩, ⟨"b.jpg", Except.ok 1⟩,
         ⟨"c.jpg", Except.error "cannot identify image file"⟩]
        "2024-01-01 10:00:00").errors.length = 1 ∧
      (uploadAction []
        [⟨"a.jpg", Except.ok 0⟩, ⟨"b.jpg", Except.ok 1⟩,
         ⟨"c.jpg", Except.error "cannot identify image file"⟩]
        "2024-01-01 10:00:00").toast = some (uploadToast 3) ∧
      uploadToast 3 ≠ uploadToast 2 := by
  refine ⟨rfl, rfl, rfl, ?_⟩
  decide

/-- C6 (amended). Each successfully decoded file of a batch appends one
record, each undecodable file is reported per-file without aborting the rest
of the batch, and the toast reports the size of the whole batch — decode
failures included — rather than the number of newly added images. -/
theorem upload_batch_amended (records : List ImgData)
    (files : List UploadedFile) (now : String) (hne : files ≠ []) :
    (uploadAction records files now).records =
        records ++ files.filterMap (fun f =>
          match f.decoded with
          | Except.ok im => some (mkRecord now im f.name)
          | Except.error _ => none) ∧
      (uploadAction records files now).errors =
        files.filterMap (fun f =>
          match f.decoded with
          | Except.ok _ => none
          | Except.error e =>
            some ("Error processing " ++ f.name ++ ": " ++ e)) ∧
      (uploadAction records files now).toast = some (uploadToast files.length) := by
  cases files with
  | nil => exact absurd rfl hne
  | cons f rest =>
    refine ⟨?_, ?_, rfl⟩
    · have h := uploadLoop_spec (f :: rest) records [] now
      simp only [uploadAction]
      rw [h]
    · have h := uploadLoop_spec (f :: rest) records [] now
      simp only [uploadAction]
      rw [h]
      simp

/-- Witness for C6 (amended): the 2-valid-plus-1-corrupt batch instantiates
the amended statement. -/
theorem upload_batch_amended_witness :
    (uploadAction []
        [⟨"a.jpg", Except.ok 0⟩, ⟨"b.jpg", Except.ok 1⟩,
         ⟨"c.jpg", Except.error "bad"⟩] "t").records =
        [] ++ ([⟨"a.jpg", Except.ok 0⟩, ⟨"b.jpg", Except.ok 1⟩,
          ⟨"c.jpg", Except.error "bad"⟩] : List UploadedFile).filterMap
          (fun f =>
            match f.decoded with
            | Except.ok im => some (mkRecord "t" im f.name)
            | Except.error _ => none) ∧
      (uploadAction []
        [⟨"a.jpg", Except.ok 0⟩, ⟨"b.jpg", Except.ok 1⟩,
         ⟨"c.jpg", Except.error "bad"⟩] "t").errors =
        ([⟨"a.jpg", Except.ok 0⟩, ⟨"b.jpg", Except.ok 1⟩,
          ⟨"c.jpg", Except.error "bad"⟩] : List UploadedFile).filterMap
          (fun f =>
            match f.decoded with
            | Except.ok _ => none
            | Except.error e =>
              some ("Error processing " ++ f.name ++ ": " ++ e)) ∧
      (uploadAction []
        [⟨"a.jpg", Except.ok 0⟩, ⟨"b.jpg", Except.ok 1⟩,
         ⟨"c.jpg", Except.error "bad"⟩] "t").toast =
        some (uploadToast
          ([⟨"a.jpg", Except.ok 0⟩, ⟨"b.jpg", Except.ok 1⟩,
            ⟨"c.jpg", Except.error "bad"⟩] : List UploadedFile).length) :=
  upload_batch_amended []
    [⟨"a.jpg", Except.ok 0⟩, ⟨"b.jpg", Except.ok 1⟩,
     ⟨"c.jpg", Except.error "bad"⟩] "t" (List.cons_ne_nil _ _)

/-- C5. When no record of the session has a populated analysis, the report
run raises no error and yields the closed document: `FPDF.output` adds the
single header-only page, a valid openable PDF. -/
theorem report_zero_analyzed_header_only (records : List ImgData)
    (h : ∀ d ∈ records, d.analysis = none) :
    generateReport records = Except.ok ⟨[headerItems]⟩ :=
  reportLoop_all_unanalyzed records 0 ⟨[]⟩ h

/-- Witness for C5: a session with one unanalyzed record generates the
header-only document without error. -/
theorem report_zero_analyzed_header_only_witness :
    generateReport [demoRecord] = Except.ok ⟨[headerItems]⟩ :=
  report_zero_analyzed_header_only [demoRecord] (by decide)

/-- C3 (code bug). With exactly 1 of 3 records analyzed, report generation
does not produce a 1-page document: the first analyzed record reaches the
emotion-bar cell whose duplicate `w` argument raises `TypeError`, the
enclosing handler reports the failure, and no document is offered. -/
theorem report_one_of_three_analyzed_fails :
    generateReport
        [{ timestamp := "2024-01-01 10:00:00", image := 0,
           analysis := some faceResultA, filename := "a.jpg",
           temp_path := some "temp_0.jpg" },
         { timestamp := "2024-01-01 10:01:00", image := 1, analysis := none,
           filename := "b.jpg", temp_path := none },
         { timestamp := "2024-01-01 10:02:00", image := 2, analysis := none,
           filename := "c.jpg", temp_path := none }] =
      Except.error "cell() got multiple values for argument w" := by
  rfl

/-- C4 (code bug). The widths the emotion-bar loop computes are locally
normalized, score divided by that record-s maximum score times 100 — but the
bar cell itself is never drawn: on the very first bar the duplicate `w`
argument raises `TypeError`, so `add_image_analysis` fails on every analyzed
record instead of rendering the bars. -/
theorem emotion_bars_never_rendered :
    emotionBarWidths [("angry", 5), ("happy", 70), ("neutral", 25)] =
        [5 / 70 * 100, 70 / 70 * 100, 25 / 70 * 100] ∧
      add_image_analysis ⟨[]⟩ "temp_0.jpg"
          { age := 25, gender := "Woman", dominant_emotion := "happy",
            emotion := [("angry", 5), ("happy", 70), ("neutral", 25)],
            dominant_race := "latino", race := [("latino", 60)] }
          "2024-01-01 10:00:00" =
        Except.error "cell() got multiple values for argument w" := by
  constructor
  · simp only [emotionBarWidths, List.foldl, List.map]
    norm_num
  · rfl

end FaceX
